import Mathlib

/-!
Verification development for the Gmail MCP server (src/gmail_mcp_server/server.py).

The module is shallowly embedded: each Python function of the server becomes a
Lean function over an explicit server state, an oracle environment describing
the outside world (token file, OAuth flow, token endpoint, Gmail API), and an
event trace recording the observable side effects in order.  Python exceptions
are modelled with Except; a value of the error constructor corresponds to an
exception propagating out of the modelled code.
-/

set_option maxHeartbeats 1600000

namespace GmailMCP

/-- OAuth scopes requested by the server (the SCOPES constant of server.py). -/
def SCOPES : List String :=
  ["https://www.googleapis.com/auth/gmail.readonly",
   "https://www.googleapis.com/auth/gmail.send"]

/-- Stand-in for the GMAIL_CREDENTIALS_FILE path, which server.py reads from the
environment at startup; no claim depends on its concrete value. -/
def CREDENTIALS_FILE : String := "/config/gmail_credentials.json"

/-- Python truthiness of an optional string field: None and the empty string are
falsy, every other string is truthy. -/
def strTruthy : Option String → Bool
  | none => false
  | some s => !(s == "")

/-- The google.oauth2.credentials.Credentials object as used by server.py.
The expiry timestamp is abstracted to the boolean expired (google-auth compares
expiry against the current time); token is None or a string; scopes is the
scope list carried by the object. -/
structure Credential where
  token : Option String
  refresh_token : Option String
  expired : Bool
  scopes : List String
deriving Repr, DecidableEq

/-- google-auth validity of a credential: a token is held and it is not
expired (the valid property used on line 340 of server.py). -/
def Credential.valid (c : Credential) : Bool := c.token.isSome && !c.expired

/-- Observable side effects of the server, in the order they happen.
loadStore is the read of the token file, logLoadError the logged load failure,
saveAttempt the write attempt of save_credentials with its two logged outcomes,
refreshRoutine entry into refresh_credentials, refreshHttp the HTTP call to the
token endpoint, oauthFlow the interactive InstalledAppFlow run, buildService
the build of the Gmail service client, and the provider events are the Gmail
message API calls (list / get / send). -/
inductive Event where
  | loadStore
  | logLoadError
  | saveAttempt
  | logSaveOk
  | logSaveError
  | refreshRoutine
  | refreshHttp
  | oauthFlow
  | buildService
  | providerList
  | providerGet
  | providerSend
deriving Repr, DecidableEq

/-- Events belonging to the credential lifecycle (everything except the Gmail
message API calls). -/
def Event.isLifecycle : Event → Bool
  | Event.providerList => false
  | Event.providerGet => false
  | Event.providerSend => false
  | _ => true

/-- Exceptions that can propagate through the embedded code. -/
inductive Err where
  | valueError (msg : String)
  | fileNotFoundError (path : String)
  | flowError
  | transportError
  | providerError (msg : String)
deriving Repr, DecidableEq

/-- The str(e) text of an exception, used by the except branch of call_tool. -/
def Err.message : Err → String
  | Err.valueError m => m
  | Err.fileNotFoundError p => "No such file or directory: " ++ p
  | Err.flowError => "authorization flow failed"
  | Err.transportError => "transport error during refresh"
  | Err.providerError m => m

/-- Outcome of the HTTP refresh call made by credentials.refresh(Request()):
success with the refreshed credential, a RefreshError (caught inside
refresh_credentials), or any other exception (which refresh_credentials does
not catch). -/
inductive RefreshOutcome where
  | ok (c : Credential)
  | refreshError
  | otherError
deriving Repr, DecidableEq

/-- Whether the refresh HTTP call succeeded. -/
def RefreshOutcome.isSuccess : RefreshOutcome → Bool
  | RefreshOutcome.ok _ => true
  | _ => false

/-- A Gmail message as returned by users().messages().get: its id, the list of
payload headers (name, value pairs, in order), and the optional snippet. -/
structure GmailMessage where
  id : String
  headers : List (String × String)
  snippet : Option String
deriving Repr, DecidableEq

/-- The output row built by server.py for each message (the dict with keys
id, subject, from, date, snippet).  fromField models the JSON key "from",
which is a reserved word in Lean. -/
structure MessageSummary where
  id : String
  subject : String
  fromField : String
  date : String
  snippet : String
deriving Repr, DecidableEq

/-- A JSON-ish argument value inside the arguments mapping of a tool call. -/
inductive ArgVal where
  | str (s : String)
  | num (n : Int)
  | other
deriving Repr, DecidableEq

/-- The arguments parameter of call_tool: either not a dict at all, or a dict
given as an association list with distinct keys. -/
inductive Args where
  | notDict
  | dict (entries : List (String × ArgVal))
deriving Repr, DecidableEq

/-- isinstance(arguments, dict). -/
def Args.isDict : Args → Bool
  | Args.notDict => false
  | Args.dict _ => true

/-- arguments.get(k): the value stored under key k, if any. -/
def Args.get : Args → String → Option ArgVal
  | Args.notDict, _ => none
  | Args.dict es, k => List.lookup k es

/-- k in arguments. -/
def Args.hasKey (a : Args) (k : String) : Bool := (a.get k).isSome

/-- Python truthiness of an optional argument value (used by create_message on
cc and bcc). -/
def argTruthy : Option ArgVal → Bool
  | none => false
  | some (ArgVal.str s) => !(s == "")
  | some (ArgVal.num n) => !(n == 0)
  | some ArgVal.other => true

/-- The provider-native message envelope produced by create_message.  The MIME
assembly and base64url encoding of server.py lines 62-77 are abstracted to the
envelope record handed to the send call: the raw bytes are a function of
exactly these fields. -/
structure EmailMessage where
  toField : ArgVal
  subject : ArgVal
  cc : Option ArgVal
  bcc : Option ArgVal
  body : ArgVal
deriving Repr, DecidableEq

/-- create_message(to, subject, body, cc, bcc) of server.py: cc and bcc are
attached only when truthy.  The Python parameter named to is rendered toArg,
since to is reserved in Lean. -/
def create_message (toArg subject body : ArgVal) (cc bcc : Option ArgVal) : EmailMessage :=
  { toField := toArg
  , subject := subject
  , cc := if argTruthy cc then cc else none
  , bcc := if argTruthy bcc then bcc else none
  , body := body }

/-- Oracle environment: the outside world as seen by one handler invocation.
tokenFileExists and loadParse describe the token file and the outcome of
json.load plus Credentials.from_authorized_user_info on it; the flow fields
describe the client-secrets file and the interactive OAuth flow; refreshHttp
the token endpoint; saveWrite the outcome of writing the token file; the three
call fields are the Gmail message API (list takes the optional query value and
the maxResults value). -/
structure Env where
  tokenFileExists : Bool
  loadParse : Except Unit Credential
  credentialsFileExists : Bool
  flowResult : Except Unit Credential
  refreshHttp : RefreshOutcome
  saveWrite : Except Unit Unit
  listCall : Option ArgVal → ArgVal → Except String (List String)
  getCall : String → Except String GmailMessage
  sendCall : EmailMessage → Except String String

/-- The mutable state of the GmailServer instance: self.credentials, and
self.gmail_service represented by the credential the built service is bound to
(none when no service has been built). -/
structure ServerState where
  credentials : Option Credential
  gmail_service : Option Credential
deriving Repr, DecidableEq

/-- GmailServer.load_saved_credentials: returns the parsed credential when the
token file exists and parses, and None (logging the error) otherwise. -/
def load_saved_credentials (env : Env) : Option Credential × List Event :=
  if env.tokenFileExists then
    match env.loadParse with
    | Except.ok c => (some c, [Event.loadStore])
    | Except.error _ => (none, [Event.loadStore, Event.logLoadError])
  else (none, [])

/-- GmailServer.save_credentials: attempts the write and catches any error,
logging either success or the failure; it never raises. -/
def save_credentials (env : Env) : List Event :=
  match env.saveWrite with
  | Except.ok _ => [Event.saveAttempt, Event.logSaveOk]
  | Except.error _ => [Event.saveAttempt, Event.logSaveError]

/-- GmailServer.refresh_credentials: logs entry, and when a credential with a
truthy refresh token is held, performs the HTTP refresh; on success it saves
and returns True, on RefreshError it returns False, and any other exception
from the refresh call propagates.  Without a refreshable credential it returns
False without any HTTP call. -/
def refresh_credentials (env : Env) (s : ServerState) :
    Except Err Bool × ServerState × List Event :=
  match s.credentials with
  | some c =>
      if strTruthy c.refresh_token then
        match env.refreshHttp with
        | RefreshOutcome.ok c2 =>
            (Except.ok true, { s with credentials := some c2 },
             [Event.refreshRoutine, Event.refreshHttp] ++ save_credentials env)
        | RefreshOutcome.refreshError =>
            (Except.ok false, s, [Event.refreshRoutine, Event.refreshHttp])
        | RefreshOutcome.otherError =>
            (Except.error Err.transportError, s, [Event.refreshRoutine, Event.refreshHttp])
      else (Except.ok false, s, [Event.refreshRoutine])
  | none => (Except.ok false, s, [Event.refreshRoutine])

/-- The InstalledAppFlow block repeated in ensure_authenticated (lines 334-339,
346-351, 354-359): from_client_secrets_file raises when the client-secrets
file is missing, then run_local_server either yields a fresh credential (which
is stored and saved) or fails. -/
def run_oauth_flow (env : Env) (s : ServerState) :
    Except Err Unit × ServerState × List Event :=
  if env.credentialsFileExists then
    match env.flowResult with
    | Except.ok c =>
        (Except.ok (), { s with credentials := some c },
         Event.oauthFlow :: save_credentials env)
    | Except.error _ => (Except.error Err.flowError, s, [Event.oauthFlow])
  else (Except.error (Err.fileNotFoundError CREDENTIALS_FILE), s, [])

/-- The branch of ensure_authenticated after the initial load (lines 329-359):
no credential forces the flow (after an explicit existence check raising
ValueError); a valid credential is used as is; an expired credential with a
truthy refresh token is refreshed, falling back to the flow when the refresh
returns False; any other invalid credential goes straight to the flow. -/
def ensure_core (env : Env) (s1 : ServerState) :
    Except Err Unit × ServerState × List Event :=
  match s1.credentials with
  | none =>
      if env.credentialsFileExists then run_oauth_flow env s1
      else
        (Except.error (Err.valueError ("Credentials file not found at " ++ CREDENTIALS_FILE)),
         s1, [])
  | some c =>
      if c.valid then (Except.ok (), s1, [])
      else if c.expired && strTruthy c.refresh_token then
        match refresh_credentials env s1 with
        | (Except.error e, s2, t2) => (Except.error e, s2, t2)
        | (Except.ok true, s2, t2) => (Except.ok (), s2, t2)
        | (Except.ok false, s2, t2) =>
            match run_oauth_flow env s2 with
            | (r3, s3, t3) => (r3, s3, t2 ++ t3)
      else run_oauth_flow env s1

/-- GmailServer.ensure_authenticated: load the saved credential when none is in
memory, run the core reuse / refresh / reauthorize logic, and finally rebuild
the Gmail service bound to the current credential. -/
def ensure_authenticated (env : Env) (s : ServerState) :
    Except Err Unit × ServerState × List Event :=
  let ld :=
    match s.credentials with
    | none =>
        match load_saved_credentials env with
        | (c, t) => ({ s with credentials := c }, t)
    | some _ => (s, ([] : List Event))
  match ensure_core env ld.1 with
  | (Except.error e, s2, t2) => (Except.error e, s2, ld.2 ++ t2)
  | (Except.ok _, s2, t2) =>
      (Except.ok (), { s2 with gmail_service := s2.credentials },
       ld.2 ++ t2 ++ [Event.buildService])

/-- The headers dict comprehension of server.py (lines 163-166 and 263-266):
a later header with the same name overwrites an earlier one. -/
def headerLookup : List (String × String) → String → Option String
  | [], _ => none
  | (n, v) :: rest, k =>
      match headerLookup rest k with
      | some v2 => some v2
      | none => if n = k then some v else none

/-- The per-message dict built by server.py: each field defaulted when absent
(subject to "No Subject", from to "Unknown", date to "Unknown", snippet to the
empty string). -/
def projectMessage (m : GmailMessage) : MessageSummary :=
  { id := m.id
  , subject := (headerLookup m.headers "Subject").getD "No Subject"
  , fromField := (headerLookup m.headers "From").getD "Unknown"
  , date := (headerLookup m.headers "Date").getD "Unknown"
  , snippet := m.snippet.getD "" }

/-- Minimal JSON string escaping used by the serializer model. -/
def jsonEscapeChar (c : Char) : String :=
  if c = '\\' then "\\\\" else if c = '"' then "\\\"" else String.singleton c

/-- Escape a string for embedding in a JSON literal. -/
def jsonEscape (s : String) : String := String.join (s.toList.map jsonEscapeChar)

/-- json.dumps of one summary dict (keys in the insertion order of server.py). -/
def dumpsSummary (m : MessageSummary) : String :=
  "\x7b\"id\": \"" ++ jsonEscape m.id ++
  "\", \"subject\": \"" ++ jsonEscape m.subject ++
  "\", \"from\": \"" ++ jsonEscape m.fromField ++
  "\", \"date\": \"" ++ jsonEscape m.date ++
  "\", \"snippet\": \"" ++ jsonEscape m.snippet ++ "\"\x7d"

/-- json.dumps of the detailed_messages array; both read_resource and the
search branch serialize their (identically shaped) arrays with the same
json.dumps call, embedded here as one shared serializer. -/
def dumpsSummaries (ms : List MessageSummary) : String :=
  "[" ++ String.intercalate ", " (ms.map dumpsSummary) ++ "]"

/-- The per-message detail loop of server.py: fetch each listed id with
users().messages().get and project it; an exception from any get propagates. -/
def fetchDetails (env : Env) : List String → Except String (List MessageSummary) × List Event
  | [] => (Except.ok [], [])
  | i :: rest =>
      match env.getCall i with
      | Except.error e => (Except.error e, [Event.providerGet])
      | Except.ok m =>
          match fetchDetails env rest with
          | (Except.error e, t) => (Except.error e, Event.providerGet :: t)
          | (Except.ok ms, t) => (Except.ok (projectMessage m :: ms), Event.providerGet :: t)

/-- The read_resource handler: authenticate, then serve the single
gmail://inbox/recent resource by listing at most 10 messages and projecting
each; any other uri raises ValueError.  No try/except surrounds the body. -/
def read_resource (env : Env) (s : ServerState) (uri : String) :
    Except Err String × ServerState × List Event :=
  match ensure_authenticated env s with
  | (Except.error e, s1, t) => (Except.error e, s1, t)
  | (Except.ok _, s1, t) =>
      if uri = "gmail://inbox/recent" then
        match env.listCall none (ArgVal.num 10) with
        | Except.error e => (Except.error (Err.providerError e), s1, t ++ [Event.providerList])
        | Except.ok ids =>
            match fetchDetails env ids with
            | (Except.error e, t2) =>
                (Except.error (Err.providerError e), s1, t ++ Event.providerList :: t2)
            | (Except.ok ms, t2) =>
                (Except.ok (dumpsSummaries ms), s1, t ++ Event.providerList :: t2)
      else (Except.error (Err.valueError ("Unknown resource: " ++ uri)), s1, t)

/-- The envelope the send branch hands to the Gmail send call. -/
def send_envelope (arguments : Args) : EmailMessage :=
  create_message ((arguments.get "to").getD ArgVal.other)
    ((arguments.get "subject").getD ArgVal.other)
    ((arguments.get "body").getD ArgVal.other)
    (arguments.get "cc") (arguments.get "bcc")

/-- The try block of call_tool (lines 245-311): validate and run the requested
tool, raising ValueError for malformed requests and propagating provider and
refresh failures to the surrounding except. -/
def call_tool_body (env : Env) (s1 : ServerState) (name : String) (arguments : Args) :
    Except Err (List String) × ServerState × List Event :=
  if name = "search_emails" then
    if !(arguments.isDict && arguments.hasKey "query") then
      (Except.error (Err.valueError "Invalid search arguments"), s1, [])
    else
      match env.listCall (arguments.get "query")
          ((arguments.get "max_results").getD (ArgVal.num 10)) with
      | Except.error e => (Except.error (Err.providerError e), s1, [Event.providerList])
      | Except.ok ids =>
          match fetchDetails env ids with
          | (Except.error e, t2) =>
              (Except.error (Err.providerError e), s1, Event.providerList :: t2)
          | (Except.ok ms, t2) =>
              (Except.ok [dumpsSummaries ms], s1, Event.providerList :: t2)
  else if name = "send_email" then
    if !(arguments.isDict && arguments.hasKey "to" && arguments.hasKey "subject"
          && arguments.hasKey "body") then
      (Except.error (Err.valueError "Invalid email arguments"), s1, [])
    else
      match refresh_credentials env s1 with
      | (Except.error e, s2, t2) => (Except.error e, s2, t2)
      | (Except.ok _, s2, t2) =>
          match env.sendCall (send_envelope arguments) with
          | Except.error e =>
              (Except.error (Err.providerError e), s2, t2 ++ [Event.providerSend])
          | Except.ok mid =>
              (Except.ok ["Email sent successfully! Message ID: " ++ mid], s2,
               t2 ++ [Event.providerSend])
  else (Except.error (Err.valueError ("Unknown tool: " ++ name)), s1, [])

/-- The call_tool handler: ensure_authenticated runs before the try block, so
its exceptions propagate; every exception raised inside the try block is
caught and turned into a single text content of the form Error: message. -/
def call_tool (env : Env) (s : ServerState) (name : String) (arguments : Args) :
    Except Err (List String) × ServerState × List Event :=
  match ensure_authenticated env s with
  | (Except.error e, s1, t) => (Except.error e, s1, t)
  | (Except.ok _, s1, t) =>
      match call_tool_body env s1 name arguments with
      | (Except.error e, s2, t2) => (Except.ok ["Error: " ++ e.message], s2, t ++ t2)
      | (Except.ok texts, s2, t2) => (Except.ok texts, s2, t ++ t2)

/-- The validation predicate implicit in call_tool: a request it answers with
Invalid search arguments, Invalid email arguments, or Unknown tool. -/
def malformedRequest (name : String) (a : Args) : Bool :=
  if name = "search_emails" then !(a.isDict && a.hasKey "query")
  else if name = "send_email" then
    !(a.isDict && a.hasKey "to" && a.hasKey "subject" && a.hasKey "body")
  else true

/-- Modelled from the spec: the projection rule of section 3 - each summary
field falls back to its fixed placeholder when the provider response lacks it. -/
def projectMessage_spec (m : GmailMessage) : MessageSummary :=
  { id := m.id
  , subject := match headerLookup m.headers "Subject" with
               | some v => v
               | none => "No Subject"
  , fromField := match headerLookup m.headers "From" with
                 | some v => v
                 | none => "Unknown"
  , date := match headerLookup m.headers "Date" with
            | some v => v
            | none => "Unknown"
  , snippet := match m.snippet with
               | some v => v
               | none => "" }

/-- Modelled from the spec: the listRecent(limit) operation of section 4.3,
which the code exposes only through the resource read - list message ids
capped at limit, fetch each message individually, and project it into a
summary, preserving the listing order. -/
def listRecent_spec (env : Env) (limit : Int) : Except String (List MessageSummary) :=
  match env.listCall none (ArgVal.num limit) with
  | Except.error e => Except.error e
  | Except.ok ids =>
      ids.foldr
        (fun i acc => do
          let m ← env.getCall i
          let ms ← acc
          pure (projectMessage_spec m :: ms))
        (Except.ok [])

/-- A valid, unexpired credential fixture. -/
def credValid : Credential :=
  { token := some "tok", refresh_token := some "refr", expired := false, scopes := SCOPES }

/-- An expired credential fixture holding a refresh token. -/
def credExpired : Credential :=
  { token := some "tok", refresh_token := some "refr", expired := true, scopes := SCOPES }

/-- The credential returned by a successful refresh or flow in the fixtures. -/
def credFresh : Credential :=
  { token := some "tok2", refresh_token := some "refr", expired := false, scopes := SCOPES }

/-- A provider message fixture with a Subject header and a snippet. -/
def msgOne : GmailMessage :=
  { id := "m1", headers := [("Subject", "Hi")], snippet := some "s" }

/-- A provider message fixture with no Subject, From, or Date header. -/
def msgBare : GmailMessage :=
  { id := "m2", headers := [("X-Other", "v")], snippet := none }

/-- Baseline oracle environment for the closed witnesses. -/
def envBase : Env :=
  { tokenFileExists := false
  , loadParse := Except.error ()
  , credentialsFileExists := true
  , flowResult := Except.ok credFresh
  , refreshHttp := RefreshOutcome.ok credFresh
  , saveWrite := Except.ok ()
  , listCall := fun _ _ => Except.ok ["m1"]
  , getCall := fun _ => Except.ok msgOne
  , sendCall := fun _ => Except.ok "sent1" }

/-- Environment with no client-secrets file and no token file. -/
def envNoFiles : Env := { envBase with credentialsFileExists := false }

/-- Environment whose refresh endpoint rejects the refresh token. -/
def envRefreshFails : Env := { envBase with refreshHttp := RefreshOutcome.refreshError }

/-- Server state with no credential in memory. -/
def sEmpty : ServerState := { credentials := none, gmail_service := none }

/-- Server state holding a valid credential. -/
def sValid : ServerState := { credentials := some credValid, gmail_service := none }

/-- Server state holding an expired, refreshable credential. -/
def sExpired : ServerState := { credentials := some credExpired, gmail_service := none }

/-- Well-formed send arguments fixture. -/
def argsSend : Args :=
  Args.dict [("to", ArgVal.str "a@b.c"), ("subject", ArgVal.str "s"), ("body", ArgVal.str "b")]

/-- Environment whose token file holds a valid credential record. -/
def envLoadValid : Env :=
  { envBase with tokenFileExists := true, loadParse := Except.ok credValid }

theorem save_all_lifecycle (env : Env) :
    (save_credentials env).all Event.isLifecycle = true := by
  cases h : env.saveWrite <;> simp [save_credentials, h, Event.isLifecycle]

theorem saveAttempt_mem_save (env : Env) : Event.saveAttempt ∈ save_credentials env := by
  cases h : env.saveWrite <;> simp [save_credentials, h]

theorem oauthFlow_not_mem_save (env : Env) : Event.oauthFlow ∉ save_credentials env := by
  cases h : env.saveWrite <;> simp [save_credentials, h]

theorem load_all_lifecycle (env : Env) :
    (load_saved_credentials env).2.all Event.isLifecycle = true := by
  cases htf : env.tokenFileExists
  · simp [load_saved_credentials, htf]
  · cases hp : env.loadParse <;>
      simp [load_saved_credentials, htf, hp, Event.isLifecycle]

theorem load_no_flow (env : Env) :
    Event.oauthFlow ∉ (load_saved_credentials env).2 ∧
    Event.refreshHttp ∉ (load_saved_credentials env).2 := by
  cases htf : env.tokenFileExists
  · simp [load_saved_credentials, htf]
  · cases hp : env.loadParse <;> simp [load_saved_credentials, htf, hp]

theorem rof_all_lifecycle (env : Env) (s : ServerState) :
    (run_oauth_flow env s).2.2.all Event.isLifecycle = true := by
  cases hcf : env.credentialsFileExists
  · simp [run_oauth_flow, hcf]
  · cases hf : env.flowResult <;>
      simp [run_oauth_flow, hcf, hf, Event.isLifecycle, save_all_lifecycle]

theorem refresh_all_lifecycle (env : Env) (s : ServerState) :
    (refresh_credentials env s).2.2.all Event.isLifecycle = true := by
  cases hcr : s.credentials
  · simp [refresh_credentials, hcr, Event.isLifecycle]
  · rename_i c
    cases hrt : strTruthy c.refresh_token
    · simp [refresh_credentials, hcr, hrt, Event.isLifecycle]
    · cases hro : env.refreshHttp <;>
        simp [refresh_credentials, hcr, hrt, hro, Event.isLifecycle, save_all_lifecycle]

theorem refresh_trace_lifecycle (env : Env) (s : ServerState) {r : Except Err Bool}
    {s2 : ServerState} {t2 : List Event} (h : refresh_credentials env s = (r, s2, t2)) :
    t2.all Event.isLifecycle = true := by
  have hall := refresh_all_lifecycle env s
  rw [h] at hall
  exact hall

theorem rof_trace_lifecycle (env : Env) (s : ServerState) {r : Except Err Unit}
    {s2 : ServerState} {t2 : List Event} (h : run_oauth_flow env s = (r, s2, t2)) :
    t2.all Event.isLifecycle = true := by
  have hall := rof_all_lifecycle env s
  rw [h] at hall
  exact hall

theorem core_all_lifecycle (env : Env) (s1 : ServerState) :
    (ensure_core env s1).2.2.all Event.isLifecycle = true := by
  cases hcr : s1.credentials
  · cases hcf : env.credentialsFileExists
    · simp [ensure_core, hcr, hcf]
    · have h := rof_all_lifecycle env s1
      simpa [ensure_core, hcr, hcf] using h
  · rename_i c
    cases hv : c.valid
    · cases he : c.expired <;> cases hrt : strTruthy c.refresh_token
      · have h := rof_all_lifecycle env s1
        simpa [ensure_core, hcr, hv, he, hrt] using h
      · have h := rof_all_lifecycle env s1
        simpa [ensure_core, hcr, hv, he, hrt] using h
      · have h := rof_all_lifecycle env s1
        simpa [ensure_core, hcr, hv, he, hrt] using h
      · cases hro : env.refreshHttp
        · simp [ensure_core, hcr, hv, he, hrt, refresh_credentials, hro,
            Event.isLifecycle, save_all_lifecycle]
        · have h := rof_all_lifecycle env s1
          simp [ensure_core, hcr, hv, he, hrt, refresh_credentials, hro,
            Event.isLifecycle, List.all_append, rof_all_lifecycle env s1]
        · simp [ensure_core, hcr, hv, he, hrt, refresh_credentials, hro, Event.isLifecycle]
    · simp [ensure_core, hcr, hv]

theorem core_trace_lifecycle (env : Env) (s1 : ServerState) {r : Except Err Unit}
    {s2 : ServerState} {t2 : List Event} (h : ensure_core env s1 = (r, s2, t2)) :
    t2.all Event.isLifecycle = true := by
  have hall := core_all_lifecycle env s1
  rw [h] at hall
  exact hall

theorem ensure_all_lifecycle (env : Env) (s : ServerState) :
    (ensure_authenticated env s).2.2.all Event.isLifecycle = true := by
  cases hcr : s.credentials
  case none =>
    rcases hL : load_saved_credentials env with ⟨cl, t1⟩
    have h1 : t1.all Event.isLifecycle = true := by
      have := load_all_lifecycle env
      rw [hL] at this
      exact this
    rcases hC : ensure_core env { s with credentials := cl } with ⟨r2, s2, t2⟩
    have h2 := core_trace_lifecycle env _ hC
    cases r2 <;>
      simp [ensure_authenticated, hcr, hL, hC, List.all_append, h1, h2, Event.isLifecycle]
  case some c =>
    rcases hC : ensure_core env s with ⟨r2, s2, t2⟩
    have h2 := core_trace_lifecycle env _ hC
    cases r2 <;>
      simp [ensure_authenticated, hcr, hC, List.all_append, h2, Event.isLifecycle]

theorem ensure_no_provider (env : Env) (s : ServerState) :
    Event.providerList ∉ (ensure_authenticated env s).2.2 ∧
    Event.providerGet ∉ (ensure_authenticated env s).2.2 ∧
    Event.providerSend ∉ (ensure_authenticated env s).2.2 := by
  have hall := ensure_all_lifecycle env s
  refine ⟨fun h => ?_, fun h => ?_, fun h => ?_⟩ <;>
    · have := List.all_eq_true.mp hall _ h
      simp [Event.isLifecycle] at this

theorem headerLookup_of_not_mem (hs : List (String × String)) (k : String)
    (h : k ∉ hs.map Prod.fst) : headerLookup hs k = none := by
  induction hs with
  | nil => rfl
  | cons p rest ih =>
      rcases p with ⟨n, v⟩
      simp only [List.map_cons, List.mem_cons] at h
      push_neg at h
      have hnk : ¬ n = k := fun hn => h.1 hn.symm
      simp [headerLookup, ih h.2, hnk]

theorem projectMessage_spec_eq (m : GmailMessage) :
    projectMessage_spec m = projectMessage m := by
  unfold projectMessage_spec projectMessage
  cases hS : headerLookup m.headers "Subject" <;>
    cases hF : headerLookup m.headers "From" <;>
      cases hD : headerLookup m.headers "Date" <;>
        cases hsn : m.snippet <;>
          simp [Option.getD]

theorem fetchDetails_eq_spec (env : Env) (ids : List String) :
    (fetchDetails env ids).1 =
      ids.foldr
        (fun i acc => do
          let m ← env.getCall i
          let ms ← acc
          pure (projectMessage_spec m :: ms))
        (Except.ok []) := by
  induction ids with
  | nil => rfl
  | cons i rest ih =>
      unfold fetchDetails
      rw [List.foldr_cons]
      cases hg : env.getCall i
      case error e => rfl
      case ok m =>
        rcases hf : fetchDetails env rest with ⟨r, t⟩
        rw [← ih, hf]
        cases r
        case error e2 => rfl
        case ok ms =>
          simp only [projectMessage_spec_eq]
          rfl

theorem refresh_saveWrite_indep (env : Env) (w : Except Unit Unit) (s : ServerState) :
    (refresh_credentials { env with saveWrite := w } s).1 = (refresh_credentials env s).1 ∧
    (refresh_credentials { env with saveWrite := w } s).2.1 = (refresh_credentials env s).2.1 := by
  cases hcr : s.credentials
  · simp [refresh_credentials, hcr]
  · rename_i c
    cases hrt : strTruthy c.refresh_token
    · simp [refresh_credentials, hcr, hrt]
    · cases hro : env.refreshHttp <;> simp [refresh_credentials, hcr, hrt, hro]

theorem rof_saveWrite_indep (env : Env) (w : Except Unit Unit) (s : ServerState) :
    (run_oauth_flow { env with saveWrite := w } s).1 = (run_oauth_flow env s).1 ∧
    (run_oauth_flow { env with saveWrite := w } s).2.1 = (run_oauth_flow env s).2.1 := by
  cases hcf : env.credentialsFileExists
  · simp [run_oauth_flow, hcf]
  · cases hf : env.flowResult <;> simp [run_oauth_flow, hcf, hf]

theorem core_saveWrite_indep (env : Env) (w : Except Unit Unit) (s1 : ServerState) :
    (ensure_core { env with saveWrite := w } s1).1 = (ensure_core env s1).1 ∧
    (ensure_core { env with saveWrite := w } s1).2.1 = (ensure_core env s1).2.1 := by
  cases hcr : s1.credentials
  · cases hcf : env.credentialsFileExists
    · simp [ensure_core, hcr, hcf]
    · have h := rof_saveWrite_indep env w s1
      simp only [hcf] at h
      simp [ensure_core, hcr, hcf, h.1, h.2]
  · rename_i c
    cases hv : c.valid
    · cases he : c.expired <;> cases hrt : strTruthy c.refresh_token
      · have h := rof_saveWrite_indep env w s1
        simp [ensure_core, hcr, hv, he, hrt, h.1, h.2]
      · have h := rof_saveWrite_indep env w s1
        simp [ensure_core, hcr, hv, he, hrt, h.1, h.2]
      · have h := rof_saveWrite_indep env w s1
        simp [ensure_core, hcr, hv, he, hrt, h.1, h.2]
      · cases hro : env.refreshHttp
        · simp [ensure_core, hcr, hv, he, hrt, refresh_credentials, hro]
        · have h := rof_saveWrite_indep env w s1
          simp only [hro] at h
          simp [ensure_core, hcr, hv, he, hrt, refresh_credentials, hro, h.1, h.2]
        · simp [ensure_core, hcr, hv, he, hrt, refresh_credentials, hro]
    · simp [ensure_core, hcr, hv]

theorem ensure_saveWrite_indep (env : Env) (w : Except Unit Unit) (s : ServerState) :
    (ensure_authenticated { env with saveWrite := w } s).1 = (ensure_authenticated env s).1 ∧
    (ensure_authenticated { env with saveWrite := w } s).2.1
      = (ensure_authenticated env s).2.1 := by
  cases hcr : s.credentials
  case none =>
    have hld : load_saved_credentials { env with saveWrite := w }
        = load_saved_credentials env := rfl
    rcases hL : load_saved_credentials env with ⟨cl, t1⟩
    have hc := core_saveWrite_indep env w { s with credentials := cl }
    rcases hC1 : ensure_core { env with saveWrite := w } { s with credentials := cl }
      with ⟨r1, sa, ta⟩
    rcases hC2 : ensure_core env { s with credentials := cl } with ⟨r2, sb, tb⟩
    rw [hC1, hC2] at hc
    have hr : r1 = r2 := hc.1
    have hs2 : sa = sb := hc.2
    subst hr
    subst hs2
    cases r1 <;> simp [ensure_authenticated, hcr, hld, hL, hC1, hC2]
  case some c =>
    have hc := core_saveWrite_indep env w s
    rcases hC1 : ensure_core { env with saveWrite := w } s with ⟨r1, sa, ta⟩
    rcases hC2 : ensure_core env s with ⟨r2, sb, tb⟩
    rw [hC1, hC2] at hc
    have hr : r1 = r2 := hc.1
    have hs2 : sa = sb := hc.2
    subst hr
    subst hs2
    cases r1 <;> simp [ensure_authenticated, hcr, hC1, hC2]

/-- C1 counterexample: a well-formed search call made while no credential and no
client-secrets file are present makes ensure_authenticated raise ValueError
before the try block of call_tool, so the handler propagates an exception
instead of returning error-shaped text content. -/
theorem C1_counterexample :
    (call_tool envNoFiles sEmpty "search_emails" (Args.dict [("query", ArgVal.str "x")])).1
      = Except.error (Err.valueError ("Credentials file not found at " ++ CREDENTIALS_FILE)) :=
  rfl

/-- C1 (amended): whenever the credential-acquisition step succeeds, the
tool-call handler never propagates an exception, and every failure path
produces error-shaped text content of the form Error: message - every
exception raised inside the try block is caught and rendered that way, every
malformed input (unknown tool name, arguments that are not a dict, missing
required keys) yields such content, the unknown-tool text is the exact
Unknown tool message, and a provider failure during the search list call or
the send call yields Error: followed by the provider message.  Failures
raised while obtaining credentials, however, occur before the try block and
propagate out of the handler (see the counterexample). -/
theorem C1_amended_theorem (env : Env) (s : ServerState) (name : String) (arguments : Args)
    (s1 : ServerState) (t0 : List Event)
    (hE : ensure_authenticated env s = (Except.ok (), s1, t0)) :
    ((call_tool env s name arguments).1).isOk = true ∧
    (∀ e s2 t2, call_tool_body env s1 name arguments = (Except.error e, s2, t2) →
      (call_tool env s name arguments).1 = Except.ok ["Error: " ++ e.message]) ∧
    (malformedRequest name arguments = true →
      ∃ msg, (call_tool env s name arguments).1 = Except.ok ["Error: " ++ msg]) ∧
    (name ≠ "search_emails" → name ≠ "send_email" →
      (call_tool env s name arguments).1
        = Except.ok ["Error: " ++ ("Unknown tool: " ++ name)]) ∧
    ((arguments.isDict && arguments.hasKey "query") = true →
      ∀ e, env.listCall (arguments.get "query")
          ((arguments.get "max_results").getD (ArgVal.num 10)) = Except.error e →
        (call_tool env s "search_emails" arguments).1 = Except.ok ["Error: " ++ e]) ∧
    ((arguments.isDict && arguments.hasKey "to" && arguments.hasKey "subject"
        && arguments.hasKey "body") = true →
      env.refreshHttp ≠ RefreshOutcome.otherError →
      ∀ e, env.sendCall (send_envelope arguments) = Except.error e →
        (call_tool env s "send_email" arguments).1 = Except.ok ["Error: " ++ e]) := by
  have hcatch : ∀ e s2 t2, call_tool_body env s1 name arguments = (Except.error e, s2, t2) →
      (call_tool env s name arguments).1 = Except.ok ["Error: " ++ e.message] := by
    intro e s2 t2 hB
    simp [call_tool, hE, hB]
  refine ⟨?_, hcatch, ?_, ?_, ?_, ?_⟩
  · rcases hB : call_tool_body env s1 name arguments with ⟨r2, s2, t2⟩
    cases r2
    case error e =>
      rw [hcatch e s2 t2 hB]
      rfl
    case ok texts => simp [call_tool, hE, hB, Except.isOk, Except.toBool]
  · intro hm
    by_cases h1 : name = "search_emails"
    · subst h1
      have hmm : (arguments.isDict && arguments.hasKey "query") = false := by
        cases hx : (arguments.isDict && arguments.hasKey "query")
        · rfl
        · simp [malformedRequest, hx] at hm
      have hbody : call_tool_body env s1 "search_emails" arguments
          = (Except.error (Err.valueError "Invalid search arguments"), s1, []) := by
        simp [call_tool_body, hmm]
      exact ⟨"Invalid search arguments", hcatch _ _ _ hbody⟩
    · by_cases h2 : name = "send_email"
      · subst h2
        have hmm : (arguments.isDict && arguments.hasKey "to" && arguments.hasKey "subject"
            && arguments.hasKey "body") = false := by
          cases hx : (arguments.isDict && arguments.hasKey "to" && arguments.hasKey "subject"
              && arguments.hasKey "body")
          · rfl
          · simp [malformedRequest, hx] at hm
        have hbody : call_tool_body env s1 "send_email" arguments
            = (Except.error (Err.valueError "Invalid email arguments"), s1, []) := by
          simp [call_tool_body, hmm]
        exact ⟨"Invalid email arguments", hcatch _ _ _ hbody⟩
      · have hbody : call_tool_body env s1 name arguments
            = (Except.error (Err.valueError ("Unknown tool: " ++ name)), s1, []) := by
          simp [call_tool_body, h1, h2]
        exact ⟨"Unknown tool: " ++ name, hcatch _ _ _ hbody⟩
  · intro h1 h2
    have hbody : call_tool_body env s1 name arguments
        = (Except.error (Err.valueError ("Unknown tool: " ++ name)), s1, []) := by
      simp [call_tool_body, h1, h2]
    simp [call_tool, hE, hbody, Err.message]
  · intro hq e hl
    simp [call_tool, hE, call_tool_body, hq, hl, Err.message]
  · intro hA hne e hsc
    cases hcr : s1.credentials
    case none =>
      simp [call_tool, hE, call_tool_body, hA, refresh_credentials, hcr, hsc, Err.message]
    case some c =>
      cases hrt : strTruthy c.refresh_token
      case false =>
        simp [call_tool, hE, call_tool_body, hA, refresh_credentials, hcr, hrt, hsc,
          Err.message]
      case true =>
        cases hro : env.refreshHttp
        case ok c2 =>
          simp [call_tool, hE, call_tool_body, hA, refresh_credentials, hcr, hrt, hro, hsc,
            Err.message]
        case refreshError =>
          simp [call_tool, hE, call_tool_body, hA, refresh_credentials, hcr, hrt, hro, hsc,
            Err.message]
        case otherError => exact absurd hro hne

/-- C1 witness: with a valid in-memory credential, an unknown tool name still
yields error-shaped content and no exception. -/
theorem C1_amended_witness :
    ((call_tool envBase sValid "bogus_tool" Args.notDict).1).isOk = true ∧
    (call_tool envBase sValid "bogus_tool" Args.notDict).1
      = Except.ok ["Error: " ++ ("Unknown tool: " ++ "bogus_tool")] :=
  have h := C1_amended_theorem envBase sValid "bogus_tool" Args.notDict
    { credentials := some credValid, gmail_service := some credValid }
    [Event.buildService] rfl
  ⟨h.1, h.2.2.2.1 (by decide) (by decide)⟩

/-- C2 counterexample: dispatching search with an empty argument dict does
return error content, but only after the credential lifecycle has run - here
the interactive OAuth flow fires before validation - refuting the claim that
malformed requests short-circuit before any credential-lifecycle work. -/
theorem C2_counterexample :
    (call_tool envBase sEmpty "search_emails" (Args.dict [])).1
        = Except.ok ["Error: Invalid search arguments"] ∧
    Event.oauthFlow ∈ (call_tool envBase sEmpty "search_emails" (Args.dict [])).2.2 := by
  constructor
  · rfl
  · have h : (call_tool envBase sEmpty "search_emails" (Args.dict [])).2.2
        = [Event.oauthFlow, Event.saveAttempt, Event.logSaveOk, Event.buildService] := rfl
    rw [h]
    decide

/-- C2 (amended): for every malformed request (unknown tool name, arguments
not a dict, or a missing required key), call_tool answers with error text
content and performs zero Gmail message API calls - although the credential
lifecycle work of ensure_authenticated does run first, before validation. -/
theorem C2_amended_theorem (env : Env) (s : ServerState) (name : String) (arguments : Args)
    (hE : (ensure_authenticated env s).1 = Except.ok ())
    (hm : malformedRequest name arguments = true) :
    (∃ msg, (call_tool env s name arguments).1 = Except.ok ["Error: " ++ msg]) ∧
    Event.providerList ∉ (call_tool env s name arguments).2.2 ∧
    Event.providerGet ∉ (call_tool env s name arguments).2.2 ∧
    Event.providerSend ∉ (call_tool env s name arguments).2.2 := by
  rcases hT : ensure_authenticated env s with ⟨r, s1, t⟩
  rw [hT] at hE
  have hr : r = Except.ok () := hE
  subst hr
  have hnp := ensure_no_provider env s
  rw [hT] at hnp
  by_cases h1 : name = "search_emails"
  · subst h1
    have hmm : (arguments.isDict && arguments.hasKey "query") = false := by
      cases hx : (arguments.isDict && arguments.hasKey "query")
      · rfl
      · simp [malformedRequest, hx] at hm
    have hbody : call_tool_body env s1 "search_emails" arguments
        = (Except.error (Err.valueError "Invalid search arguments"), s1, []) := by
      simp [call_tool_body, hmm]
    refine ⟨⟨"Invalid search arguments", ?_⟩, ?_, ?_, ?_⟩
    · simp [call_tool, hT, hbody, Err.message]
    · simpa [call_tool, hT, hbody] using hnp.1
    · simpa [call_tool, hT, hbody] using hnp.2.1
    · simpa [call_tool, hT, hbody] using hnp.2.2
  · by_cases h2 : name = "send_email"
    · subst h2
      have hmm : (arguments.isDict && arguments.hasKey "to" && arguments.hasKey "subject"
          && arguments.hasKey "body") = false := by
        cases hx : (arguments.isDict && arguments.hasKey "to" && arguments.hasKey "subject"
            && arguments.hasKey "body")
        · rfl
        · simp [malformedRequest, hx] at hm
      have hbody : call_tool_body env s1 "send_email" arguments
          = (Except.error (Err.valueError "Invalid email arguments"), s1, []) := by
        simp [call_tool_body, hmm]
      refine ⟨⟨"Invalid email arguments", ?_⟩, ?_, ?_, ?_⟩
      · simp [call_tool, hT, hbody, Err.message]
      · simpa [call_tool, hT, hbody] using hnp.1
      · simpa [call_tool, hT, hbody] using hnp.2.1
      · simpa [call_tool, hT, hbody] using hnp.2.2
    · have hbody : call_tool_body env s1 name arguments
          = (Except.error (Err.valueError ("Unknown tool: " ++ name)), s1, []) := by
        simp [call_tool_body, h1, h2]
      refine ⟨⟨"Unknown tool: " ++ name, ?_⟩, ?_, ?_, ?_⟩
      · simp [call_tool, hT, hbody, Err.message]
      · simpa [call_tool, hT, hbody] using hnp.1
      · simpa [call_tool, hT, hbody] using hnp.2.1
      · simpa [call_tool, hT, hbody] using hnp.2.2

/-- C2 witness: a search call with an empty dict performs no Gmail message API
list call. -/
theorem C2_amended_witness :
    Event.providerList ∉ (call_tool envBase sValid "search_emails" (Args.dict [])).2.2 :=
  (C2_amended_theorem envBase sValid "search_emails" (Args.dict []) rfl rfl).2.1

/-- C8: the projection into a message summary defaults every absent field to
its fixed placeholder - subject to No Subject, from to Unknown, date to
Unknown, snippet to the empty string - regardless of what other headers are
present. -/
theorem C8_theorem (m : GmailMessage) :
    ("Subject" ∉ m.headers.map Prod.fst → (projectMessage m).subject = "No Subject") ∧
    ("From" ∉ m.headers.map Prod.fst → (projectMessage m).fromField = "Unknown") ∧
    ("Date" ∉ m.headers.map Prod.fst → (projectMessage m).date = "Unknown") ∧
    (m.snippet = none → (projectMessage m).snippet = "") := by
  refine ⟨fun h => ?_, fun h => ?_, fun h => ?_, fun h => ?_⟩
  · simp [projectMessage, headerLookup_of_not_mem _ _ h]
  · simp [projectMessage, headerLookup_of_not_mem _ _ h]
  · simp [projectMessage, headerLookup_of_not_mem _ _ h]
  · simp [projectMessage, h]

/-- C8 witness: a message with only an unrelated header and no snippet is
projected onto all four placeholders. -/
theorem C8_witness :
    (projectMessage msgBare).subject = "No Subject" ∧
    (projectMessage msgBare).fromField = "Unknown" ∧
    (projectMessage msgBare).date = "Unknown" ∧
    (projectMessage msgBare).snippet = "" :=
  have h := C8_theorem msgBare
  ⟨h.1 (by decide), h.2.1 (by decide), h.2.2.1 (by decide), h.2.2.2 rfl⟩

/-- C10: save_credentials swallows persistence errors, so the outcome and the
resulting server state of refresh_credentials and ensure_authenticated are
identical whether the token-file write succeeds or fails, and after a
successful refresh the refreshed credential is held in memory even when the
save failed. -/
theorem C10_theorem (env : Env) (s : ServerState) :
    ((refresh_credentials { env with saveWrite := Except.ok () } s).1
      = (refresh_credentials { env with saveWrite := Except.error () } s).1) ∧
    ((refresh_credentials { env with saveWrite := Except.ok () } s).2.1
      = (refresh_credentials { env with saveWrite := Except.error () } s).2.1) ∧
    ((ensure_authenticated { env with saveWrite := Except.ok () } s).1
      = (ensure_authenticated { env with saveWrite := Except.error () } s).1) ∧
    ((ensure_authenticated { env with saveWrite := Except.ok () } s).2.1
      = (ensure_authenticated { env with saveWrite := Except.error () } s).2.1) ∧
    (∀ c c2, s.credentials = some c → strTruthy c.refresh_token = true →
      env.refreshHttp = RefreshOutcome.ok c2 →
      (refresh_credentials { env with saveWrite := Except.error () } s).2.1.credentials
        = some c2) := by
  refine ⟨?_, ?_, ?_, ?_, ?_⟩
  · rw [(refresh_saveWrite_indep env (Except.ok ()) s).1,
      (refresh_saveWrite_indep env (Except.error ()) s).1]
  · rw [(refresh_saveWrite_indep env (Except.ok ()) s).2,
      (refresh_saveWrite_indep env (Except.error ()) s).2]
  · rw [(ensure_saveWrite_indep env (Except.ok ()) s).1,
      (ensure_saveWrite_indep env (Except.error ()) s).1]
  · rw [(ensure_saveWrite_indep env (Except.ok ()) s).2,
      (ensure_saveWrite_indep env (Except.error ()) s).2]
  · intro c c2 hc hrt hro
    simp [refresh_credentials, hc, hrt, hro]

/-- C10 witness: with the token-file write failing, a successful refresh of an
expired credential still leaves the refreshed credential in memory. -/
theorem C10_witness :
    (refresh_credentials { envBase with saveWrite := Except.error () } sExpired).2.1.credentials
      = some credFresh :=
  (C10_theorem envBase sExpired).2.2.2.2 credExpired credFresh rfl rfl rfl

/-- C4: when the in-memory credential is expired and carries a (truthy)
refresh token, ensure_authenticated emits the refresh-routine entry and the
token-endpoint HTTP call as the first two events - hence before any
interactive authorization - and runs the interactive flow only when that
refresh fails with a RefreshError. -/
theorem C4_theorem (env : Env) (s : ServerState) (c : Credential)
    (hc : s.credentials = some c) (he : c.expired = true)
    (hr : strTruthy c.refresh_token = true) :
    (ensure_authenticated env s).2.2.head? = some Event.refreshRoutine ∧
    (ensure_authenticated env s).2.2.tail.head? = some Event.refreshHttp ∧
    (Event.oauthFlow ∈ (ensure_authenticated env s).2.2 →
      env.refreshHttp = RefreshOutcome.refreshError) := by
  have hv : c.valid = false := by simp [Credential.valid, he]
  cases hro : env.refreshHttp
  case ok c2 =>
    refine ⟨?_, ?_, fun hmem => ?_⟩
    · simp [ensure_authenticated, ensure_core, hc, hv, he, hr, refresh_credentials, hro]
    · simp [ensure_authenticated, ensure_core, hc, hv, he, hr, refresh_credentials, hro]
    · exfalso
      simp [ensure_authenticated, ensure_core, hc, hv, he, hr, refresh_credentials, hro] at hmem
      exact oauthFlow_not_mem_save env hmem
  case refreshError =>
    rcases hO : run_oauth_flow env s with ⟨r3, s3, t3⟩
    refine ⟨?_, ?_, fun _ => rfl⟩ <;>
      cases r3 <;>
        simp [ensure_authenticated, ensure_core, hc, hv, he, hr, refresh_credentials, hro, hO]
  case otherError =>
    refine ⟨?_, ?_, fun hmem => ?_⟩
    · simp [ensure_authenticated, ensure_core, hc, hv, he, hr, refresh_credentials, hro]
    · simp [ensure_authenticated, ensure_core, hc, hv, he, hr, refresh_credentials, hro]
    · exfalso
      simp [ensure_authenticated, ensure_core, hc, hv, he, hr, refresh_credentials, hro] at hmem

/-- C4 witness: with an expired refreshable credential and a rejecting token
endpoint, the trace opens with the refresh-routine entry. -/
theorem C4_witness :
    (ensure_authenticated envRefreshFails sExpired).2.2.head? = some Event.refreshRoutine :=
  (C4_theorem envRefreshFails sExpired credExpired rfl rfl rfl).1

/-- C5: a valid, non-expired credential matching the required scopes - held in
memory or loaded from the token file - is returned as is: ensure_authenticated
succeeds with that credential bound to the rebuilt service, and neither the
refresh routine, nor the token endpoint, nor the interactive flow is
invoked. -/
theorem C5_theorem (env : Env) (s : ServerState) (c : Credential)
    (hin : s.credentials = some c ∨
      (s.credentials = none ∧ env.tokenFileExists = true ∧ env.loadParse = Except.ok c))
    (hv : c.valid = true) (_hsc : c.scopes = SCOPES) :
    (ensure_authenticated env s).1 = Except.ok () ∧
    (ensure_authenticated env s).2.1.credentials = some c ∧
    (ensure_authenticated env s).2.1.gmail_service = some c ∧
    Event.refreshRoutine ∉ (ensure_authenticated env s).2.2 ∧
    Event.refreshHttp ∉ (ensure_authenticated env s).2.2 ∧
    Event.oauthFlow ∉ (ensure_authenticated env s).2.2 := by
  rcases hin with hc | ⟨hn, htf, hlp⟩
  · refine ⟨?_, ?_, ?_, ?_, ?_, ?_⟩ <;>
      simp [ensure_authenticated, ensure_core, hc, hv]
  · refine ⟨?_, ?_, ?_, ?_, ?_, ?_⟩ <;>
      simp [ensure_authenticated, ensure_core, load_saved_credentials, hn, htf, hlp, hv]

/-- C5 witness: a valid persisted credential is loaded and used with no
refresh and no interactive flow. -/
theorem C5_witness :
    (ensure_authenticated envLoadValid sEmpty).1 = Except.ok () ∧
    (ensure_authenticated envLoadValid sEmpty).2.1.credentials = some credValid :=
  have h := C5_theorem envLoadValid sEmpty credValid (Or.inr ⟨rfl, rfl, rfl⟩) rfl rfl
  ⟨h.1, h.2.1⟩

theorem rof_save_on_ok (env : Env) (s : ServerState)
    (hok : (run_oauth_flow env s).1 = Except.ok ()) :
    Event.saveAttempt ∈ (run_oauth_flow env s).2.2 := by
  cases hcf : env.credentialsFileExists
  · simp [run_oauth_flow, hcf] at hok
  · cases hf : env.flowResult
    case error e => simp [run_oauth_flow, hcf, hf] at hok
    case ok c =>
      simp [run_oauth_flow, hcf, hf, List.mem_cons]
      exact saveAttempt_mem_save env

theorem core_save_on_acquire (env : Env) (s1 : ServerState)
    (hok : (ensure_core env s1).1 = Except.ok ())
    (hnew : Event.oauthFlow ∈ (ensure_core env s1).2.2 ∨
      (Event.refreshHttp ∈ (ensure_core env s1).2.2 ∧ env.refreshHttp.isSuccess = true)) :
    Event.saveAttempt ∈ (ensure_core env s1).2.2 := by
  cases hcr : s1.credentials
  case none =>
    cases hcf : env.credentialsFileExists
    · simp [ensure_core, hcr, hcf] at hok
    · have hok2 : (run_oauth_flow env s1).1 = Except.ok () := by
        simpa [ensure_core, hcr, hcf] using hok
      have hmem := rof_save_on_ok env s1 hok2
      simpa [ensure_core, hcr, hcf] using hmem
  case some c =>
    cases hv : c.valid
    case true => simp [ensure_core, hcr, hv] at hnew
    case false =>
      cases he : c.expired <;> cases hrt : strTruthy c.refresh_token
      case false.false =>
        have hok2 : (run_oauth_flow env s1).1 = Except.ok () := by
          simpa [ensure_core, hcr, hv, he, hrt] using hok
        have hmem := rof_save_on_ok env s1 hok2
        simpa [ensure_core, hcr, hv, he, hrt] using hmem
      case false.true =>
        have hok2 : (run_oauth_flow env s1).1 = Except.ok () := by
          simpa [ensure_core, hcr, hv, he, hrt] using hok
        have hmem := rof_save_on_ok env s1 hok2
        simpa [ensure_core, hcr, hv, he, hrt] using hmem
      case true.false =>
        have hok2 : (run_oauth_flow env s1).1 = Except.ok () := by
          simpa [ensure_core, hcr, hv, he, hrt] using hok
        have hmem := rof_save_on_ok env s1 hok2
        simpa [ensure_core, hcr, hv, he, hrt] using hmem
      case true.true =>
        cases hro : env.refreshHttp
        case ok c2 =>
          simp [ensure_core, hcr, hv, he, hrt, refresh_credentials, hro, List.mem_cons,
            List.mem_append]
          exact saveAttempt_mem_save env
        case refreshError =>
          rcases hO : run_oauth_flow env s1 with ⟨r3, s3, t3⟩
          have hok2 : r3 = Except.ok () := by
            simpa [ensure_core, hcr, hv, he, hrt, refresh_credentials, hro, hO] using hok
          have hmem := rof_save_on_ok env s1 (by rw [hO]; exact hok2)
          rw [hO] at hmem
          simp [ensure_core, hcr, hv, he, hrt, refresh_credentials, hro, hO, List.mem_cons,
            List.mem_append]
          exact hmem
        case otherError =>
          simp [ensure_core, hcr, hv, he, hrt, refresh_credentials, hro] at hok

/-- C6: on every path of ensure_authenticated that obtains a new credential -
a successful interactive flow, or a successful token refresh - the
save_credentials write is attempted before the call returns (the final
service-build event closes the trace), so the credential is persisted before
the current operation proceeds. -/
theorem C6_theorem (env : Env) (s : ServerState)
    (hok : (ensure_authenticated env s).1 = Except.ok ())
    (hnew : Event.oauthFlow ∈ (ensure_authenticated env s).2.2 ∨
      (Event.refreshHttp ∈ (ensure_authenticated env s).2.2 ∧
        env.refreshHttp.isSuccess = true)) :
    ∃ pre, (ensure_authenticated env s).2.2 = pre ++ [Event.buildService] ∧
      Event.saveAttempt ∈ pre := by
  cases hcr : s.credentials
  case none =>
    rcases hL : load_saved_credentials env with ⟨cl, t1⟩
    rcases hC : ensure_core env { s with credentials := cl } with ⟨r2, s2c, t2⟩
    cases r2
    case error e =>
      have hx : (ensure_authenticated env s).1 = Except.error e := by
        simp [ensure_authenticated, hcr, hL, hC]
      rw [hx] at hok
      simp at hok
    case ok u =>
      cases u
      have htr : (ensure_authenticated env s).2.2 = t1 ++ t2 ++ [Event.buildService] := by
        simp [ensure_authenticated, hcr, hL, hC]
      have hnf := load_no_flow env
      rw [hL] at hnf
      have hnew2 : Event.oauthFlow ∈ t2 ∨
          (Event.refreshHttp ∈ t2 ∧ env.refreshHttp.isSuccess = true) := by
        rw [htr] at hnew
        rcases hnew with h | ⟨h, hs⟩
        · left
          simp only [List.mem_append, List.mem_singleton] at h
          rcases h with (h | h) | h
          · exact absurd h hnf.1
          · exact h
          · simp at h
        · right
          refine ⟨?_, hs⟩
          simp only [List.mem_append, List.mem_singleton] at h
          rcases h with (h | h) | h
          · exact absurd h hnf.2
          · exact h
          · simp at h
      have hmem := core_save_on_acquire env { s with credentials := cl }
        (by rw [hC]) (by rw [hC]; exact hnew2)
      rw [hC] at hmem
      exact ⟨t1 ++ t2, htr, List.mem_append.mpr (Or.inr hmem)⟩
  case some c =>
    rcases hC : ensure_core env s with ⟨r2, s2c, t2⟩
    cases r2
    case error e =>
      have hx : (ensure_authenticated env s).1 = Except.error e := by
        simp [ensure_authenticated, hcr, hC]
      rw [hx] at hok
      simp at hok
    case ok u =>
      cases u
      have htr : (ensure_authenticated env s).2.2 = t2 ++ [Event.buildService] := by
        simp [ensure_authenticated, hcr, hC]
      have hnew2 : Event.oauthFlow ∈ t2 ∨
          (Event.refreshHttp ∈ t2 ∧ env.refreshHttp.isSuccess = true) := by
        rw [htr] at hnew
        rcases hnew with h | ⟨h, hs⟩
        · left
          simp only [List.mem_append, List.mem_singleton] at h
          rcases h with h | h
          · exact h
          · simp at h
        · right
          refine ⟨?_, hs⟩
          simp only [List.mem_append, List.mem_singleton] at h
          rcases h with h | h
          · exact h
          · simp at h
      have hmem := core_save_on_acquire env s (by rw [hC]) (by rw [hC]; exact hnew2)
      rw [hC] at hmem
      exact ⟨t2, htr, hmem⟩

/-- C6 witness: a fresh interactive authorization from the empty state saves
the credential before the service is built and the call returns. -/
theorem C6_witness :
    ∃ pre, (ensure_authenticated envBase sEmpty).2.2 = pre ++ [Event.buildService] ∧
      Event.saveAttempt ∈ pre :=
  C6_theorem envBase sEmpty rfl (Or.inl (by decide))

/-- C7: for every send_email call with valid arguments made after successful
authentication, the refresh routine is invoked before the message is
transmitted (whenever the provider send event occurs, the trace ends with it
and a refresh-routine entry precedes it), and on success the single text
content embeds the provider-assigned message id. -/
theorem C7_theorem (env : Env) (s : ServerState) (arguments : Args)
    (hE : (ensure_authenticated env s).1 = Except.ok ())
    (hA : (arguments.isDict && arguments.hasKey "to" && arguments.hasKey "subject"
        && arguments.hasKey "body") = true) :
    (Event.providerSend ∈ (call_tool env s "send_email" arguments).2.2 →
      ∃ pre, (call_tool env s "send_email" arguments).2.2 = pre ++ [Event.providerSend] ∧
        Event.refreshRoutine ∈ pre) ∧
    (∀ mid, env.sendCall (send_envelope arguments) = Except.ok mid →
      env.refreshHttp ≠ RefreshOutcome.otherError →
      (call_tool env s "send_email" arguments).1
        = Except.ok ["Email sent successfully! Message ID: " ++ mid]) := by
  rcases hT : ensure_authenticated env s with ⟨r, s1, t0⟩
  rw [hT] at hE
  have hr0 : r = Except.ok () := hE
  subst hr0
  have hns : Event.providerSend ∉ t0 := by
    have h := (ensure_no_provider env s).2.2
    rw [hT] at h
    exact h
  cases hcr : s1.credentials
  case none =>
    constructor
    · intro hmem
      refine ⟨t0 ++ [Event.refreshRoutine], ?_, by simp⟩
      cases hsc : env.sendCall (send_envelope arguments) <;>
        simp [call_tool, hT, call_tool_body, hA, refresh_credentials, hcr, hsc]
    · intro mid hmid hne
      simp [call_tool, hT, call_tool_body, hA, refresh_credentials, hcr, hmid]
  case some c =>
    cases hrt : strTruthy c.refresh_token
    case false =>
      constructor
      · intro hmem
        refine ⟨t0 ++ [Event.refreshRoutine], ?_, by simp⟩
        cases hsc : env.sendCall (send_envelope arguments) <;>
          simp [call_tool, hT, call_tool_body, hA, refresh_credentials, hcr, hrt, hsc]
      · intro mid hmid hne
        simp [call_tool, hT, call_tool_body, hA, refresh_credentials, hcr, hrt, hmid]
    case true =>
      cases hro : env.refreshHttp
      case ok c2 =>
        constructor
        · intro hmem
          refine ⟨t0 ++ ([Event.refreshRoutine, Event.refreshHttp] ++ save_credentials env),
            ?_, by simp⟩
          cases hsc : env.sendCall (send_envelope arguments) <;>
            simp [call_tool, hT, call_tool_body, hA, refresh_credentials, hcr, hrt, hro, hsc]
        · intro mid hmid hne
          simp [call_tool, hT, call_tool_body, hA, refresh_credentials, hcr, hrt, hro, hmid]
      case refreshError =>
        constructor
        · intro hmem
          refine ⟨t0 ++ [Event.refreshRoutine, Event.refreshHttp], ?_, by simp⟩
          cases hsc : env.sendCall (send_envelope arguments) <;>
            simp [call_tool, hT, call_tool_body, hA, refresh_credentials, hcr, hrt, hro, hsc]
        · intro mid hmid hne
          simp [call_tool, hT, call_tool_body, hA, refresh_credentials, hcr, hrt, hro, hmid]
      case otherError =>
        constructor
        · intro hmem
          exfalso
          simp [call_tool, hT, call_tool_body, hA, refresh_credentials, hcr, hrt, hro] at hmem
          exact hns hmem
        · intro mid hmid hne
          exact absurd rfl hne

/-- C7 witness: a valid send with a working provider returns the confirmation
embedding the provider message id. -/
theorem C7_witness :
    (call_tool envBase sValid "send_email" argsSend).1
      = Except.ok ["Email sent successfully! Message ID: " ++ "sent1"] :=
  (C7_theorem envBase sValid argsSend rfl rfl).2 "sent1" rfl (by decide)

/-- C9: after successful authentication, reading the single supported resource
identifier produces exactly the serialization of the spec-level listRecent(10)
result built from the same provider responses, and any other resource
identifier raises the Unknown resource ValueError. -/
theorem C9_theorem (env : Env) (s : ServerState)
    (hE : (ensure_authenticated env s).1 = Except.ok ()) :
    ((read_resource env s "gmail://inbox/recent").1 =
      (match listRecent_spec env 10 with
       | Except.ok ms => Except.ok (dumpsSummaries ms)
       | Except.error e => Except.error (Err.providerError e))) ∧
    (∀ uri, uri ≠ "gmail://inbox/recent" →
      (read_resource env s uri).1
        = Except.error (Err.valueError ("Unknown resource: " ++ uri))) := by
  rcases hT : ensure_authenticated env s with ⟨r, s1, t0⟩
  rw [hT] at hE
  have hr0 : r = Except.ok () := hE
  subst hr0
  constructor
  · cases hl : env.listCall none (ArgVal.num 10)
    case error e =>
      simp [read_resource, hT, listRecent_spec, hl]
    case ok ids =>
      rcases hf : fetchDetails env ids with ⟨rf, tf⟩
      have hlr : listRecent_spec env 10 = rf := by
        simp only [listRecent_spec, hl]
        rw [← fetchDetails_eq_spec, hf]
      cases rf <;> simp [read_resource, hT, hl, hf, hlr]
  · intro uri hu
    simp [read_resource, hT, hu]

/-- C9 witness: an unrecognized resource identifier yields the Unknown
resource caller error. -/
theorem C9_witness :
    (read_resource envBase sValid "gmail://other").1
      = Except.error (Err.valueError ("Unknown resource: " ++ "gmail://other")) :=
  (C9_theorem envBase sValid rfl).2 "gmail://other" (by decide)

end GmailMCP
